import Mathlib

set_option autoImplicit false

/-!
Verification of the A2A repository against its specification.

The Python sources are shallowly embedded: pydantic models become Lean
structures, Python `dict`s become insertion-ordered association lists with
Python's first-match lookup / in-place-overwrite assignment semantics, and
stateful code becomes explicit state passing.  Machine integers do not occur
in the embedded code paths except for the 32-bit words of SHA-256, which are
represented as `Nat` reduced modulo `2 ^ 32`.
-/

namespace A2A

/-- A Python `dict` with `String` keys, as an insertion-ordered association
list.  Python dicts never hold a key twice; operations below preserve that
invariant when it holds, and theorems that need it take it as a `Nodup`
hypothesis. -/
abbrev Dict (V : Type) := List (String × V)

/-- Python `d[k]` / `d.get(k)`: first entry with the given key. -/
def dictGet {V : Type} (k : String) : Dict V → Option V
  | [] => none
  | (k', v) :: rest => if k' = k then some v else dictGet k rest

/-- Python `k in d`. -/
def keyMem {V : Type} (k : String) (d : Dict V) : Bool :=
  (dictGet k d).isSome

/-- Python `d[k] = v`: replace the value at the first occurrence of `k`,
or append the pair if `k` is absent. -/
def setKey {V : Type} (k : String) (v : V) : Dict V → Dict V
  | [] => [(k, v)]
  | (k', v') :: rest => if k' = k then (k', v) :: rest else (k', v') :: setKey k v rest

/-- Python `del d[k]` (on a present key): remove the first occurrence of `k`. -/
def delKey {V : Type} (k : String) : Dict V → Dict V
  | [] => []
  | (k', v') :: rest => if k' = k then rest else (k', v') :: delKey k rest

/-- Python `target.update(source)`: assign every `source` entry into `target`
in insertion order, overwriting values at existing keys. -/
def dictUpdate {V : Type} (d : Dict V) : Dict V → Dict V
  | [] => d
  | (k, v) :: rest => dictUpdate (setKey k v d) rest

/-- Python truthiness of an optional dict: `None` and `{}` are falsy. -/
def truthyDict {V : Type} : Option (Dict V) → Bool
  | none => false
  | some d => !d.isEmpty

/-- `merge_metadata` from `hosts/multi_agent/remote_agent_connection.py`
(lines 86-92), acting on the `meta_data` fields of target and source.  Every
call site modeled here passes objects that do have a `meta_data` attribute, so
the `hasattr` guard is always satisfied.  When both dicts are truthy the code
runs `target.meta_data.update(source.meta_data)`; when only the source is
truthy it copies the source dict into the target. -/
def mergeMetadata {V : Type} (target source : Option (Dict V)) : Option (Dict V) :=
  if truthyDict target && truthyDict source then
    some (dictUpdate (target.getD []) (source.getD []))
  else if truthyDict source then
    some (source.getD [])
  else
    target

theorem dictGet_setKey_self {V : Type} (k : String) (v : V) (d : Dict V) :
    dictGet k (setKey k v d) = some v := by
  induction d with
  | nil => simp [setKey, dictGet]
  | cons p rest ih =>
    obtain ⟨k', v'⟩ := p
    by_cases h : k' = k
    · simp [setKey, h, dictGet]
    · simp [setKey, h, dictGet, ih]

theorem dictGet_setKey_ne {V : Type} {k q : String} (h : q ≠ k) (v : V) (d : Dict V) :
    dictGet q (setKey k v d) = dictGet q d := by
  induction d with
  | nil => simp [setKey, dictGet, Ne.symm h]
  | cons p rest ih =>
    obtain ⟨k', v'⟩ := p
    by_cases hk : k' = k
    · subst hk
      have hne : ¬k' = q := fun hc => h hc.symm
      simp [setKey, dictGet, hne]
    · simp [setKey, hk, dictGet, ih]

theorem dictGet_eq_none_of_not_mem {V : Type} {k : String} {d : Dict V}
    (h : k ∉ d.map Prod.fst) : dictGet k d = none := by
  induction d with
  | nil => rfl
  | cons p rest ih =>
    obtain ⟨k', v'⟩ := p
    simp only [List.map_cons, List.mem_cons] at h
    push_neg at h
    have hne : ¬k' = k := fun hc => h.1 hc.symm
    simp [dictGet, hne, ih h.2]

theorem dictGet_dictUpdate_of_not_mem {V : Type} {k : String} {s : Dict V}
    (h : dictGet k s = none) (d : Dict V) :
    dictGet k (dictUpdate d s) = dictGet k d := by
  induction s generalizing d with
  | nil => rfl
  | cons p rest ih =>
    obtain ⟨k0, v0⟩ := p
    simp only [dictGet] at h
    by_cases hk : k0 = k
    · simp [hk] at h
    · simp only [if_neg hk] at h
      simp only [dictUpdate]
      rw [ih h, dictGet_setKey_ne (fun hc => hk hc.symm)]

theorem dictGet_dictUpdate_of_mem {V : Type} {k : String} {v : V} {s : Dict V}
    (hnd : (s.map Prod.fst).Nodup) (h : dictGet k s = some v) (d : Dict V) :
    dictGet k (dictUpdate d s) = some v := by
  induction s generalizing d with
  | nil => simp [dictGet] at h
  | cons p rest ih =>
    obtain ⟨k0, v0⟩ := p
    simp only [List.map_cons, List.nodup_cons] at hnd
    simp only [dictGet] at h
    by_cases hk : k0 = k
    · subst hk
      rw [if_pos rfl] at h
      injection h with hv0
      subst hv0
      have hrest : dictGet k0 rest = none := dictGet_eq_none_of_not_mem hnd.1
      simp only [dictUpdate]
      rw [dictGet_dictUpdate_of_not_mem hrest, dictGet_setKey_self]
    · simp only [if_neg hk] at h
      simpa [dictUpdate] using ih hnd.2 h (setKey k0 v0 d)

/-- C1 as written is false at a concrete input: merging request metadata
`\x7b"conversation_id": "request"\x7d` into a target that already holds the key
with value `"target"` yields the request's value, not the target's
pre-existing one — Python `dict.update` overwrites on key conflict. -/
theorem C1_target_value_not_retained :
    mergeMetadata (some [("conversation_id", "target")])
        (some [("conversation_id", "request")]) =
      some [("conversation_id", "request")] ∧
    ("request" : String) ≠ "target" := by
  constructor
  · rfl
  · decide

/-- C1 amended: `merge_metadata` copies every metadata key of the originating
request into the target, and on a key present in both it is the request's
value that wins (overwriting the target's pre-existing value); keys present
only in the target keep their values. -/
theorem C1_merge_copies_request_and_overwrites {V : Type}
    (target : Option (Dict V)) (d : Dict V) (k : String)
    (hnd : (d.map Prod.fst).Nodup) :
    (∀ v, dictGet k d = some v →
      dictGet k ((mergeMetadata target (some d)).getD []) = some v) ∧
    (dictGet k d = none →
      dictGet k ((mergeMetadata target (some d)).getD []) =
        dictGet k (target.getD [])) := by
  by_cases hd : d = []
  · subst hd
    have hs : truthyDict (V := V) (some []) = false := by simp [truthyDict]
    constructor
    · intro v hv
      simp [dictGet] at hv
    · intro _
      have hmerge : mergeMetadata (V := V) target (some []) = target := by
        simp [mergeMetadata, truthyDict]
      rw [hmerge]
  · have hs : truthyDict (V := V) (some d) = true := by simp [truthyDict, hd]
    rcases target with _ | td
    · have ht : truthyDict (V := V) none = false := rfl
      constructor
      · intro v hv
        simpa [mergeMetadata, ht, hs] using hv
      · intro hnone
        simpa [mergeMetadata, ht, hs, dictGet] using hnone
    · by_cases htd : td = []
      · subst htd
        have ht : truthyDict (V := V) (some []) = false := by simp [truthyDict]
        constructor
        · intro v hv
          simpa [mergeMetadata, ht, hs] using hv
        · intro hnone
          simpa [mergeMetadata, ht, hs, dictGet] using hnone
      · have ht : truthyDict (V := V) (some td) = true := by simp [truthyDict, htd]
        constructor
        · intro v hv
          simp only [mergeMetadata, ht, hs, Bool.and_self, if_pos rfl, Option.getD_some]
          exact dictGet_dictUpdate_of_mem hnd hv td
        · intro hnone
          simp only [mergeMetadata, ht, hs, Bool.and_self, if_pos rfl, Option.getD_some]
          exact dictGet_dictUpdate_of_not_mem hnone td

/-- Witness for C1's amended theorem at a concrete merge. -/
theorem C1_merge_copies_request_and_overwrites_witness :
    dictGet "a" ((mergeMetadata (some [("a", "1")]) (some [("a", "2"), ("b", "3")])).getD [])
      = some "2" :=
  (C1_merge_copies_request_and_overwrites (some [("a", "1")]) [("a", "2"), ("b", "3")] "a"
    (by decide)).1 "2" (by decide)

/-- Python truthiness of an optional string field: `None` and `""` are falsy. -/
def truthyStr : Option String → Bool
  | none => false
  | some s => !s.isEmpty

/-- `FileContent` from `common/types.py` (lines 27-31). -/
structure FileContent where
  name : Option String := none
  mimeType : Option String := none
  bytes : Option String := none
  uri : Option String := none

/-- The `check_content` model validator of `FileContent` (types.py lines
33-40): pydantic runs it at construction time, before the value can reach any
network code, raising `ValueError` unless exactly one of `bytes`/`uri` is
truthy. -/
def FileContent.check_content (f : FileContent) : Except String FileContent :=
  if !(truthyStr f.bytes || truthyStr f.uri) then
    Except.error "Either bytes or uri must be provided"
  else if truthyStr f.bytes && truthyStr f.uri then
    Except.error "Only one of bytes or uri must be provided"
  else
    Except.ok f

/-- C7: a `FileContent` construction passes validation exactly when one of
`bytes`, `uri` is set (truthy, in the code's own `if self.bytes` sense) and
the other is not; both set or neither set is a validation error raised at
construction, before any network activity. -/
theorem C7_file_content_exactly_one (f : FileContent) :
    FileContent.check_content f = Except.ok f ↔
      ((truthyStr f.bytes = true ∧ truthyStr f.uri = false) ∨
       (truthyStr f.bytes = false ∧ truthyStr f.uri = true)) := by
  cases hb : truthyStr f.bytes <;> cases hu : truthyStr f.uri <;>
    simp [FileContent.check_content, hb, hu]

/-- `JSONRPCError` from `common/types.py` (lines 153-156). -/
structure JSONRPCError where
  code : Int
  message : String
  data : Option String := none

/-- `JSONRPCResponse` from `common/types.py` (lines 159-161): both fields are
optional with default `None`, and the class declares no model validator, so
pydantic accepts every combination of `result` and `error`. -/
structure JSONRPCResponse (R : Type) where
  jsonrpc : String := "2.0"
  id : Option String := none
  result : Option R := none
  error : Option JSONRPCError := none

/-- C3 as written is false: `JSONRPCResponse` has no validator, so a response
with neither `result` nor `error` (all defaults), and one with both, are
constructible values. -/
theorem C3_no_exclusivity_enforced :
    (({} : JSONRPCResponse Unit).result = none ∧
     ({} : JSONRPCResponse Unit).error = none) ∧
    (({ result := some (), error := some ⟨-32603, "Internal error", none⟩ } :
        JSONRPCResponse Unit).result.isSome = true ∧
     ({ result := some (), error := some ⟨-32603, "Internal error", none⟩ } :
        JSONRPCResponse Unit).error.isSome = true) :=
  ⟨⟨rfl, rfl⟩, ⟨rfl, rfl⟩⟩

/-- C3 amended: `JSONRPCResponse` enforces no exclusivity between `result` and
`error`; every combination of the two fields — both set, neither set, or
exactly one — is constructible.  Exactly-one-of is not an invariant of the
type as defined. -/
theorem C3_every_combination_constructible {R : Type}
    (r : Option R) (e : Option JSONRPCError) :
    ∃ resp : JSONRPCResponse R, resp.result = r ∧ resp.error = e :=
  ⟨{ result := r, error := e }, rfl, rfl⟩

/-- The seven method literals of the `A2ARequest` union (types.py 223-236). -/
def a2aMethods : List String :=
  ["tasks/send", "tasks/get", "tasks/cancel", "tasks/setPushNotification/set",
   "tasks/pushNotification/get", "tasks/reSubscribe", "tasks/sendSubscribe"]

/-- The members of the `A2ARequest` discriminated union. -/
inductive A2ARequestKind
  | sendTask
  | getTask
  | cancelTask
  | setTaskPushNotification
  | getTaskPushNotification
  | taskResubscribe
  | sendTaskStreaming
deriving DecidableEq

/-- The `A2ARequest` TypeAdapter (types.py lines 223-236): pydantic dispatches
on the `method` discriminator over the seven literal tags, in union order; a
payload whose method matches none of them fails validation with an error, and
no default member is ever produced. -/
def a2aRequestDiscriminate (method : String) : Except String A2ARequestKind :=
  if method = "tasks/send" then Except.ok A2ARequestKind.sendTask
  else if method = "tasks/get" then Except.ok A2ARequestKind.getTask
  else if method = "tasks/cancel" then Except.ok A2ARequestKind.cancelTask
  else if method = "tasks/setPushNotification/set" then
    Except.ok A2ARequestKind.setTaskPushNotification
  else if method = "tasks/pushNotification/get" then
    Except.ok A2ARequestKind.getTaskPushNotification
  else if method = "tasks/reSubscribe" then Except.ok A2ARequestKind.taskResubscribe
  else if method = "tasks/sendSubscribe" then Except.ok A2ARequestKind.sendTaskStreaming
  else Except.error "Input tag does not match any of the expected tags"

/-- C8: decoding a request whose method is outside the seven known literals
fails with a validation error; it never silently yields a default or fallback
request kind. -/
theorem C8_unknown_method_fails (m : String) (h : m ∉ a2aMethods) :
    a2aRequestDiscriminate m =
      Except.error "Input tag does not match any of the expected tags" := by
  simp only [a2aMethods, List.mem_cons, List.not_mem_nil, or_false] at h
  push_neg at h
  obtain ⟨h1, h2, h3, h4, h5, h6, h7⟩ := h
  simp [a2aRequestDiscriminate, h1, h2, h3, h4, h5, h6, h7]

/-- Witness for C8 at the concrete unknown method `tasks/unknown`. -/
theorem C8_unknown_method_fails_witness :
    a2aRequestDiscriminate "tasks/unknown" =
      Except.error "Input tag does not match any of the expected tags" :=
  C8_unknown_method_fails "tasks/unknown" (by decide)

/-- `are_modalities_compatible` from `common/server/utils.py` (lines 7-15):
`None` is modeled as `none`; returns true when the client list is `None` or
empty, then when the server list is `None` or empty, else whether some client
mode occurs in the server list. -/
def are_modalities_compatible
    (server_output_modes client_output_modes : Option (List String)) : Bool :=
  match client_output_modes with
  | none => true
  | some c =>
    if c.length = 0 then true
    else
      match server_output_modes with
      | none => true
      | some s => if s.length = 0 then true else c.any (fun x => s.contains x)

/-- C10: modality compatibility is true whenever the client list is `None` or
empty or the server list is `None` or empty, and otherwise exactly when some
element of the client list is contained in the server list. -/
theorem C10_modalities_compatible_iff
    (so co : Option (List String)) :
    are_modalities_compatible so co = true ↔
      (co = none ∨ co = some [] ∨ so = none ∨ so = some [] ∨
        ∃ x, x ∈ co.getD [] ∧ x ∈ so.getD []) := by
  rcases co with _ | c
  · simp [are_modalities_compatible]
  · rcases so with _ | s
    · rcases c with _ | ⟨x, c'⟩ <;> simp [are_modalities_compatible]
    · rcases c with _ | ⟨x, c'⟩
      · simp [are_modalities_compatible]
      · rcases s with _ | ⟨y, s'⟩
        · simp [are_modalities_compatible]
        · simp only [are_modalities_compatible, List.length_cons, Nat.succ_ne_zero, if_false,
            List.any_eq_true, List.elem_iff, Option.getD_some]
          constructor
          · rintro ⟨z, hz, hmem⟩
            exact Or.inr (Or.inr (Or.inr (Or.inr ⟨z, hz, hmem⟩)))
          · rintro (h | h | h | h | ⟨z, hz, hmem⟩) <;>
              first
                | exact absurd h (by simp)
                | exact ⟨z, hz, hmem⟩

theorem mem_keys_setKey {V : Type} {q k : String} {v : V} {d : Dict V}
    (h : q ∈ (setKey k v d).map Prod.fst) : q ∈ d.map Prod.fst ∨ q = k := by
  induction d with
  | nil => simpa [setKey] using h
  | cons p rest ih =>
    obtain ⟨k', v'⟩ := p
    by_cases hk : k' = k
    · subst hk
      have hset : setKey k' v ((k', v') :: rest) = (k', v) :: rest := by
        simp [setKey]
      rw [hset] at h
      left
      simpa using h
    · simp only [setKey, if_neg hk, List.map_cons, List.mem_cons] at h ⊢
      rcases h with h | h
      · exact Or.inl (Or.inl h)
      · rcases ih h with h' | h'
        · exact Or.inl (Or.inr h')
        · exact Or.inr h'

theorem nodup_keys_setKey {V : Type} {k : String} {v : V} {d : Dict V}
    (h : (d.map Prod.fst).Nodup) : ((setKey k v d).map Prod.fst).Nodup := by
  induction d with
  | nil => simp [setKey]
  | cons p rest ih =>
    obtain ⟨k', v'⟩ := p
    simp only [List.map_cons, List.nodup_cons] at h
    by_cases hk : k' = k
    · subst hk
      have hset : setKey k' v ((k', v') :: rest) = (k', v) :: rest := by
        simp [setKey]
      rw [hset]
      simp only [List.map_cons, List.nodup_cons]
      exact ⟨h.1, h.2⟩
    · simp only [setKey, if_neg hk, List.map_cons, List.nodup_cons]
      refine ⟨fun hmem => ?_, ih h.2⟩
      rcases mem_keys_setKey hmem with h' | h'
      · exact h.1 h'
      · exact hk h'

theorem dictGet_delKey_self {V : Type} {k : String} {d : Dict V}
    (h : (d.map Prod.fst).Nodup) : dictGet k (delKey k d) = none := by
  induction d with
  | nil => rfl
  | cons p rest ih =>
    obtain ⟨k', v'⟩ := p
    simp only [List.map_cons, List.nodup_cons] at h
    by_cases hk : k' = k
    · subst hk
      simp only [delKey, if_pos rfl]
      exact dictGet_eq_none_of_not_mem h.1
    · simp only [delKey, if_neg hk, dictGet, if_neg hk]
      exact ih h.2

/-- The mutable state of `InMemoryCache` (in_memory_cache.py): the stored
values and the per-key absolute expiry instants.  `time.time()` is passed
explicitly as `now`; every operation runs under the data lock, so the step
functions below are the whole critical sections. -/
structure CacheState (V : Type) where
  cache_data : Dict V := []
  ttl : Dict Nat := []

/-- `InMemoryCache.set` (lines 28-35): store the value; with a ttl, record
`now + ttl` as the expiry; without one, drop any previous expiry for the
key. -/
def cacheSet {V : Type} (now : Nat) (key : String) (value : V) (ttl : Option Nat)
    (s : CacheState V) : CacheState V :=
  { cache_data := setKey key value s.cache_data,
    ttl :=
      match ttl with
      | some t => setKey key (now + t) s.ttl
      | none => if keyMem key s.ttl then delKey key s.ttl else s.ttl }

/-- `InMemoryCache.get` (lines 37-45) with default `None`: if the key has an
expiry that has strictly passed, evict the entry from both maps and return the
default; otherwise return the stored value.  `Except.error ()` marks the
`KeyError` Python's `del self._cache_data[key]` would raise if an expired key
were missing from the data map. -/
def cacheGet {V : Type} (now : Nat) (key : String) (s : CacheState V) :
    Except Unit (Option V × CacheState V) :=
  match dictGet key s.ttl with
  | some expiry =>
    if now > expiry then
      if keyMem key s.cache_data then
        Except.ok (none,
          { cache_data := delKey key s.cache_data, ttl := delKey key s.ttl })
      else Except.error ()
    else Except.ok (dictGet key s.cache_data, s)
  | none => Except.ok (dictGet key s.cache_data, s)

/-- C9: after `set(k, v, ttl)` with a positive ttl, a `get(k)` at any time up
to the expiry instant returns `v` (cache unchanged), and a `get(k)` after the
expiry instant returns the default `None` and evicts the entry, leaving the
key absent from both the data map and the expiry map. -/
theorem C9_cache_ttl (V : Type) (s : CacheState V) (now tl now1 now2 : Nat)
    (k : String) (v : V)
    (hnd : (s.cache_data.map Prod.fst).Nodup) (hnt : (s.ttl.map Prod.fst).Nodup)
    (hpos : 0 < tl) :
    (now1 ≤ now + tl →
      cacheGet now1 k (cacheSet now k v (some tl) s) =
        Except.ok (some v, cacheSet now k v (some tl) s)) ∧
    (now2 > now + tl →
      ∃ s2, cacheGet now2 k (cacheSet now k v (some tl) s) = Except.ok (none, s2) ∧
        keyMem k s2.cache_data = false ∧ keyMem k s2.ttl = false) := by
  have httl : dictGet k (cacheSet now k v (some tl) s).ttl = some (now + tl) := by
    simp [cacheSet, dictGet_setKey_self]
  have hdata : dictGet k (cacheSet now k v (some tl) s).cache_data = some v := by
    simp [cacheSet, dictGet_setKey_self]
  constructor
  · intro h1
    have hng : ¬ now1 > now + tl := by omega
    simp only [cacheGet, httl]
    rw [if_neg hng, hdata]
  · intro h2
    refine ⟨{ cache_data := delKey k (cacheSet now k v (some tl) s).cache_data,
              ttl := delKey k (cacheSet now k v (some tl) s).ttl }, ?_, ?_, ?_⟩
    · have hmem : keyMem k (cacheSet now k v (some tl) s).cache_data = true := by
        simp [keyMem, hdata]
      simp only [cacheGet, httl]
      rw [if_pos h2, if_pos hmem]
    · have : dictGet k (delKey k (cacheSet now k v (some tl) s).cache_data) = none :=
        dictGet_delKey_self (by simpa [cacheSet] using nodup_keys_setKey hnd)
      simp [keyMem, this]
    · have : dictGet k (delKey k (cacheSet now k v (some tl) s).ttl) = none :=
        dictGet_delKey_self (by simpa [cacheSet] using nodup_keys_setKey hnt)
      simp [keyMem, this]

/-- Witness for C9 at a concrete run: set at time 0 with ttl 1, read back at
the expiry boundary (time 1) and after it (time 2). -/
theorem C9_cache_ttl_witness :
    (cacheGet 1 "k" (cacheSet 0 "k" "v" (some 1) { cache_data := [], ttl := [] }) =
      Except.ok (some "v", cacheSet 0 "k" "v" (some 1) { cache_data := [], ttl := [] })) ∧
    (∃ s2, cacheGet 2 "k" (cacheSet 0 "k" "v" (some 1) { cache_data := [], ttl := [] }) =
        Except.ok (none, s2) ∧
      keyMem "k" s2.cache_data = false ∧ keyMem "k" s2.ttl = false) := by
  have h := C9_cache_ttl String { cache_data := [], ttl := [] } 0 1 1 2 "k" "v"
    (by simp) (by simp) (by decide)
  exact ⟨h.1 (by decide), h.2 (by decide)⟩

/-- `TaskState` from `common/types.py` (lines 11-18). -/
inductive TaskState
  | submitted
  | working
  | input_required
  | completed
  | cancelled
  | failed
  | unknown
deriving DecidableEq

/-- The `Part` discriminated union (types.py lines 21-55).  Metadata values
are modeled as strings, the only value kind the verified claims touch. -/
inductive Part
  | text (text : String) (meta_data : Option (Dict String))
  | file (file : FileContent) (meta_data : Option (Dict String))
  | data (data : Dict String) (meta_data : Option (Dict String))

/-- `Message` from types.py (lines 58-61). -/
structure Message where
  role : String
  parts : List Part
  meta_data : Option (Dict String) := none

/-- `TaskStatus` from types.py (lines 64-67); the timestamp is a plain
instant. -/
structure TaskStatus where
  state : TaskState
  message : Option Message := none
  timestamp : Nat := 0

/-- `Artifact` from types.py (lines 74-81). -/
structure Artifact where
  name : Option String := none
  description : Option String := none
  parts : List Part
  meta_data : Option (Dict String) := none
  index : Nat := 0
  append : Option Bool := none
  lastChunk : Option Bool := none

/-- `Task` from types.py (lines 84-90). -/
structure Task where
  id : String
  sessionId : Option String := none
  status : TaskStatus
  artifacts : Option (List Artifact) := none
  history : Option (List Message) := none
  meta_data : Option (Dict String) := none

/-- `TaskStatusUpdateEvent` from types.py (lines 93-97). -/
structure TaskStatusUpdateEvent where
  id : String
  status : TaskStatus
  final : Bool := false
  meta_data : Option (Dict String) := none

/-- `TaskArtifactUpdateEvent` from types.py (lines 100-103); note it has no
`final` field, so the adapter's `hasattr(response.result, "final")` check is
false for it. -/
structure TaskArtifactUpdateEvent where
  id : String
  artifact : Artifact
  meta_data : Option (Dict String) := none

/-- The `result` payload of a `SendTaskStreamingResponse` (types.py lines
178-179). -/
inductive StreamResult
  | status (e : TaskStatusUpdateEvent)
  | artifact (e : TaskArtifactUpdateEvent)

/-- `TaskSendParams` from types.py (lines 127-134); the pydantic default
factories for `sessionId` are supplied by the caller here. -/
structure TaskSendParams where
  id : String
  sessionId : String
  message : Message
  acceptedOutputModels : Option (List String) := none
  historyLength : Option Nat := none
  meta_data : Option (Dict String) := none

/-- The per-status-message metadata step of `RemoteAgentConnections.send_task`
(remote_agent_connection.py lines 52-59): merge the request message's metadata
into the status message, replace a falsy metadata with `\x7b\x7d`, rename an
existing `message_id` to `last_message_id`, then assign the freshly generated
uuid as the new `message_id`. -/
def processStatusMessage (reqMsgMeta : Option (Dict String)) (uuid : String)
    (m : Message) : Message :=
  let meta1 := mergeMetadata m.meta_data reqMsgMeta
  let meta2 := if truthyDict meta1 then meta1.getD [] else []
  let meta3 :=
    match dictGet "message_id" meta2 with
    | some mid => setKey "last_message_id" mid meta2
    | none => meta2
  { m with meta_data := some (setKey "message_id" uuid meta3) }

/-- One iteration of the streaming loop body before the callback
(remote_agent_connection.py lines 48-59): merge request metadata into the
event, and, when the event is a status update carrying a message, run the
metadata chain step with the next generated uuid.  Returns the processed
event and the next uuid index. -/
def processEvent (req : TaskSendParams) (gen : Nat → String) (n : Nat) :
    StreamResult → StreamResult × Nat
  | StreamResult.status e =>
    let e1 := { e with meta_data := mergeMetadata e.meta_data req.meta_data }
    match e1.status.message with
    | some m =>
      (StreamResult.status
        { e1 with status :=
            { e1.status with message := some (processStatusMessage req.message.meta_data (gen n) m) } },
        n + 1)
    | none => (StreamResult.status e1, n)
  | StreamResult.artifact e =>
    (StreamResult.artifact { e with meta_data := mergeMetadata e.meta_data req.meta_data }, n)

/-- The adapter's `final` probe `hasattr(response.result, "final") and
response.result.final`: artifact events have no `final` attribute. -/
def resultFinal : StreamResult → Bool
  | StreamResult.status e => e.final
  | StreamResult.artifact _ => false

/-- The streaming branch of `RemoteAgentConnections.send_task` (lines 47-64)
as a function of the wire-event sequence: each received event is processed and
delivered via the callback, and the loop breaks right after delivering the
first event whose `final` flag is true.  The returned list is the sequence of
callback deliveries drawn from the stream (the synthesized SUBMITTED `Task` of
lines 36-45 is delivered before this sequence and is not a wire event). -/
def consumeStream (req : TaskSendParams) (gen : Nat → String) :
    Nat → List StreamResult → List StreamResult
  | _, [] => []
  | n, r :: rest =>
    let p := processEvent req gen n r
    if resultFinal p.1 then [p.1] else p.1 :: consumeStream req gen p.2 rest

/-- Forget every metadata field of a delivered event, keeping ids, states,
parts, artifacts and the `final` flag: the shape the termination claim is
about. -/
def eraseEventMeta : StreamResult → StreamResult
  | StreamResult.status e =>
    StreamResult.status
      { e with
        meta_data := none
        status := { e.status with
          message := e.status.message.map (fun m => { m with meta_data := none }) } }
  | StreamResult.artifact e => StreamResult.artifact { e with meta_data := none }

theorem resultFinal_processEvent (req : TaskSendParams) (gen : Nat → String) (n : Nat)
    (r : StreamResult) : resultFinal (processEvent req gen n r).1 = resultFinal r := by
  cases r with
  | status e =>
    cases hm : e.status.message with
    | some m => simp [processEvent, resultFinal, hm]
    | none => simp [processEvent, resultFinal, hm]
  | artifact e => rfl

theorem eraseEventMeta_processEvent (req : TaskSendParams) (gen : Nat → String) (n : Nat)
    (r : StreamResult) :
    eraseEventMeta (processEvent req gen n r).1 = eraseEventMeta r := by
  cases r with
  | status e =>
    obtain ⟨id, ⟨st, msg, ts⟩, fin, meta⟩ := e
    cases msg with
    | none => rfl
    | some m =>
      obtain ⟨role, parts, mmeta⟩ := m
      rfl
  | artifact e =>
    obtain ⟨id, art, meta⟩ := e
    rfl

/-- C5: for a finite series of wire events consisting of non-final events
followed by one final event, the adapter delivers exactly those events, in
order (up to the metadata it merges in), and delivers nothing further even if
more events arrive on the wire afterwards. -/
theorem C5_stream_ends_at_final (req : TaskSendParams) (gen : Nat → String) (n : Nat)
    (init : List StreamResult) (last : StreamResult) (rest : List StreamResult)
    (hinit : ∀ e ∈ init, resultFinal e = false) (hlast : resultFinal last = true) :
    (consumeStream req gen n ((init ++ [last]) ++ rest)).map eraseEventMeta =
      (init ++ [last]).map eraseEventMeta := by
  induction init generalizing n with
  | nil =>
    simp only [List.nil_append, List.cons_append, List.nil_append, consumeStream]
    rw [if_pos (by rw [resultFinal_processEvent]; exact hlast)]
    simp [eraseEventMeta_processEvent]
  | cons e init' ih =>
    have he : resultFinal e = false := hinit e (List.mem_cons_self e init')
    have hinit' : ∀ x ∈ init', resultFinal x = false :=
      fun x hx => hinit x (List.mem_cons_of_mem e hx)
    simp only [List.cons_append, consumeStream]
    rw [if_neg (by rw [resultFinal_processEvent, he]; exact Bool.false_ne_true)]
    simp only [List.map_cons, eraseEventMeta_processEvent, List.append_eq]
    rw [ih _ hinit']

/-- A concrete request whose conversation metadata is empty, for stream
examples. -/
def exampleRequest : TaskSendParams :=
  { id := "task-1"
    sessionId := "session-1"
    message := { role := "user", parts := [], meta_data := none } }

/-- A status update event for task `id` whose message already carries the
metadata key `message_id` with value `mid`. -/
def mkStatusEvent (id : String) (st : TaskState) (mid : String) (fin : Bool) :
    TaskStatusUpdateEvent :=
  { id := id
    status := {
      state := st
      message := some { role := "agent", parts := [], meta_data := some [("message_id", mid)] }
      timestamp := 0 }
    final := fin
    meta_data := none }

/-- A deterministic stand-in for `uuid.uuid4()`: the i-th generated id. -/
def exampleGen : Nat → String :=
  fun i => if i = 0 then "uuid-1" else "uuid-2"

/-- The status message metadata of a delivered event. -/
def statusMessageMeta : StreamResult → Option (Dict String)
  | StreamResult.status e =>
    match e.status.message with
    | some m => m.meta_data
    | none => none
  | StreamResult.artifact _ => none

/-- Witness for C5 at a concrete three-event wire: one non-final status
update, one final status update, then a trailing event that is never
delivered. -/
theorem C5_stream_ends_at_final_witness :
    (consumeStream exampleRequest exampleGen 0
        (([StreamResult.status (mkStatusEvent "task-1" TaskState.working "a" false)] ++
          [StreamResult.status (mkStatusEvent "task-1" TaskState.completed "b" true)]) ++
         [StreamResult.status (mkStatusEvent "task-1" TaskState.working "c" false)])).map
        eraseEventMeta =
      ([StreamResult.status (mkStatusEvent "task-1" TaskState.working "a" false)] ++
        [StreamResult.status (mkStatusEvent "task-1" TaskState.completed "b" true)]).map
        eraseEventMeta :=
  C5_stream_ends_at_final exampleRequest exampleGen 0
    [StreamResult.status (mkStatusEvent "task-1" TaskState.working "a" false)]
    (StreamResult.status (mkStatusEvent "task-1" TaskState.completed "b" true))
    [StreamResult.status (mkStatusEvent "task-1" TaskState.working "c" false)]
    (by intro e he; simp at he; subst he; rfl) rfl

/-- C2 as written is false at a concrete two-update stream: with incoming
status messages carrying `message_id` values `"a"` then `"b"` and fresh uuids
`"uuid-1"`, `"uuid-2"`, the second delivered update's `last_message_id` is its
own incoming `"b"`, not the first update's freshly assigned `"uuid-1"` — the
adapter never threads the id it assigned to one update into the next. -/
theorem C2_chain_across_updates_fails :
    (consumeStream exampleRequest exampleGen 0
        [StreamResult.status (mkStatusEvent "task-1" TaskState.working "a" false),
         StreamResult.status (mkStatusEvent "task-1" TaskState.completed "b" true)]).map
        statusMessageMeta =
      [some [("message_id", "uuid-1"), ("last_message_id", "a")],
       some [("message_id", "uuid-2"), ("last_message_id", "b")]] ∧
    ("b" : String) ≠ "uuid-1" := by
  constructor
  · rfl
  · decide

/-- C2 amended: for two sequential status updates on the same task whose
incoming messages already carry `message_id` values `a` and `b` (and an
originating request without metadata), each delivered update's metadata holds
`last_message_id` equal to that update's own incoming `message_id` — `a` for
the first, `b` for the second — and a freshly generated `message_id` (the
next uuid from the generator); the fresh ids of the two updates are the
generator's successive outputs, distinct from each other and from `a`, `b`
exactly when the generator is fresh. -/
theorem C2_each_update_chains_its_own_id
    (gen : Nat → String) (rid rsid role : String) (parts : List Part)
    (id1 id2 : String) (st1 st2 : TaskState) (a b : String) :
    (consumeStream
        { id := rid
          sessionId := rsid
          message := { role := role, parts := parts, meta_data := none }
          meta_data := none }
        gen 0
        [StreamResult.status (mkStatusEvent id1 st1 a false),
         StreamResult.status (mkStatusEvent id2 st2 b true)]).map
        statusMessageMeta =
      [some [("message_id", gen 0), ("last_message_id", a)],
       some [("message_id", gen 1), ("last_message_id", b)]] := by
  simp [consumeStream, processEvent, mkStatusEvent, resultFinal, statusMessageMeta,
    processStatusMessage, mergeMetadata, truthyDict, dictGet, setKey]

mutual
/-- A JSON value, as handled by `json.dumps`/`response.json()`.  Object keys
keep insertion order, matching Python dict semantics; numbers are modeled as
integers (the signed bodies the claims exercise carry no floats, and
`allow_nan=False` is set at the only serialization site).  Arrays and objects
are mutual inductives rather than nested `List`s so that the serializer below
is structurally recursive and reduces inside the kernel. -/
inductive Json
  | null
  | bool (b : Bool)
  | num (n : Int)
  | str (s : String)
  | arr (items : JsonList)
  | obj (fields : JsonObj)

/-- The elements of a JSON array. -/
inductive JsonList
  | nil
  | cons (hd : Json) (tl : JsonList)

/-- The insertion-ordered fields of a JSON object. -/
inductive JsonObj
  | nil
  | cons (key : String) (val : Json) (tl : JsonObj)
end

/-- The outcome of the single `httpx` POST performed by
`A2AClient._send_request`: either the transport fails before any response
exists, or a response arrives with a status code and a body whose JSON
parse may fail. -/
inductive HttpOutcome
  | transportError (msg : String)
  | response (status : Nat) (body : Except String Json)

/-- The exception `A2AClient._send_request` lets escape.  `httpError` is
`A2AClientHTTPError` (carrying `response.status_code`), `jsonError` is
`A2AClientJSONError`, and `unboundLocal` is Python's `UnboundLocalError`:
when the POST itself raises, the `except httpx.HTTPError` handler evaluates
`response.status_code` although `response` was never assigned. -/
inductive ClientError
  | httpError (status : Nat)
  | jsonError (msg : String)
  | unboundLocal
deriving DecidableEq

/-- `A2AClient._send_request` (common/client/client.py lines 34-43), shared by
all five unary operations (`send_task`, `get_task`, `cancel_task`,
`set_task_callback`, `get_task_callback`): POST once; `raise_for_status`
raises on any non-2xx status, caught and re-raised as `A2AClientHTTPError`
with the status code; a JSON decode failure of a 2xx body becomes
`A2AClientJSONError`; a transport failure reaches the `except httpx.HTTPError`
handler with `response` unbound, so the handler itself raises
`UnboundLocalError`. -/
def sendRequestResult (outcome : HttpOutcome) : Except ClientError Json :=
  match outcome with
  | HttpOutcome.transportError _ => Except.error ClientError.unboundLocal
  | HttpOutcome.response st body =>
    if 200 ≤ st ∧ st < 300 then
      match body with
      | Except.ok j => Except.ok j
      | Except.error m => Except.error (ClientError.jsonError m)
    else Except.error (ClientError.httpError st)

/-- C6: a non-2xx response does surface as an HTTP error carrying the status
code, but a transport failure does not — the `except httpx.HTTPError` handler
reads the unbound local `response`, so the operation raises Python's
`UnboundLocalError`, an undifferentiated exception that is not an HTTP error
for any status code.  This contradicts the claim's transport-failure half. -/
theorem C6_transport_failure_not_http_error (m : String) (st : Nat)
    (body : Except String Json) (h : st < 200 ∨ 300 ≤ st) :
    sendRequestResult (HttpOutcome.response st body) =
      Except.error (ClientError.httpError st) ∧
    sendRequestResult (HttpOutcome.transportError m) =
      Except.error ClientError.unboundLocal ∧
    (∀ st', ClientError.unboundLocal ≠ ClientError.httpError st') := by
  refine ⟨?_, rfl, fun st' => by simp⟩
  have hn : ¬(200 ≤ st ∧ st < 300) := by omega
  simp [sendRequestResult, hn]

/-- Witness for C6 at a concrete 404 response and a concrete connection
failure. -/
theorem C6_transport_failure_not_http_error_witness :
    sendRequestResult (HttpOutcome.response 404 (Except.error "not json")) =
      Except.error (ClientError.httpError 404) ∧
    sendRequestResult (HttpOutcome.transportError "connection refused") =
      Except.error ClientError.unboundLocal ∧
    (∀ st', ClientError.unboundLocal ≠ ClientError.httpError st') :=
  C6_transport_failure_not_http_error "connection refused" 404 (Except.error "not json")
    (Or.inr (by decide))

/-- Lowercase hexadecimal digit, as produced by Python's `hexdigest` and
`\uXXXX` escapes. -/
def hexDigit (n : Nat) : Char :=
  if n < 10 then Char.ofNat (48 + n) else Char.ofNat (87 + n)

/-- Escape one character as `json.dumps(..., ensure_ascii=False)` does:
quote, backslash and control characters are escaped, everything else is
emitted verbatim. -/
def escapeChar (c : Char) : String :=
  if c = '"' then "\\\""
  else if c = '\\' then "\\\\"
  else if c = '\n' then "\\n"
  else if c = '\t' then "\\t"
  else if c = '\r' then "\\r"
  else if c.toNat = 8 then "\\b"
  else if c.toNat = 12 then "\\f"
  else if c.toNat < 32 then
    String.mk ['\\', 'u', '0', '0', hexDigit (c.toNat / 16), hexDigit (c.toNat % 16)]
  else String.singleton c

def escapeString (s : String) : String :=
  s.data.foldl (fun acc c => acc ++ escapeChar c) ""

mutual
/-- `json.dumps(data, ensure_ascii=False, allow_nan=False,
separators=(",", ":"), indent=None)` as used by
`PushNotificationAuth._calculate_request_body_sha256`
(push_notification_auth.py lines 21-29): compact separators, insertion-order
keys. -/
def dumps : Json → String
  | Json.null => "null"
  | Json.bool true => "true"
  | Json.bool false => "false"
  | Json.num n => toString n
  | Json.str s => "\"" ++ escapeString s ++ "\""
  | Json.arr items => "[" ++ dumpsList items ++ "]"
  | Json.obj fields => "\x7b" ++ dumpsObj fields ++ "\x7d"

/-- Comma-joined serialization of array elements. -/
def dumpsList : JsonList → String
  | JsonList.nil => ""
  | JsonList.cons j JsonList.nil => dumps j
  | JsonList.cons j rest => dumps j ++ "," ++ dumpsList rest

/-- Comma-joined serialization of object fields, keys in insertion order. -/
def dumpsObj : JsonObj → String
  | JsonObj.nil => ""
  | JsonObj.cons k j JsonObj.nil => "\"" ++ escapeString k ++ "\":" ++ dumps j
  | JsonObj.cons k j rest =>
    "\"" ++ escapeString k ++ "\":" ++ dumps j ++ "," ++ dumpsObj rest
end

/-- UTF-8 encoding of one Unicode code point (Python `str.encode()`). -/
def utf8EncodeChar (c : Char) : List Nat :=
  let n := c.toNat
  if n < 128 then [n]
  else if n < 2048 then [192 + n / 64, 128 + n % 64]
  else if n < 65536 then [224 + n / 4096, 128 + (n / 64) % 64, 128 + n % 64]
  else [240 + n / 262144, 128 + (n / 4096) % 64, 128 + (n / 64) % 64, 128 + n % 64]

/-- Python `body_str.encode()`: the UTF-8 bytes of a string. -/
def utf8Encode (s : String) : List Nat :=
  s.data.foldr (fun c acc => utf8EncodeChar c ++ acc) []

/-- SHA-256 (FIPS 180-4), over bytes as `Nat`s, words as `Nat` mod `2 ^ 32`:
the `hashlib.sha256` the push-notification auth code calls. -/
def sha256M32 : Nat := 4294967296

def rotr32 (n x : Nat) : Nat :=
  ((x >>> n) ||| (x <<< (32 - n))) % sha256M32

def sha256K : List Nat :=
  [1116352408, 1899447441, 3049323471, 3921009573,
   961987163, 1508970993, 2453635748, 2870763221,
   3624381080, 310598401, 607225278, 1426881987,
   1925078388, 2162078206, 2614888103, 3248222580,
   3835390401, 4022224774, 264347078, 604807628,
   770255983, 1249150122, 1555081692, 1996064986,
   2554220882, 2821834349, 2952996808, 3210313671,
   3336571891, 3584528711, 113926993, 338241895,
   666307205, 773529912, 1294757372, 1396182291,
   1695183700, 1986661051, 2177026350, 2456956037,
   2730485921, 2820302411, 3259730800, 3345764771,
   3516065817, 3600352804, 4094571909, 275423344,
   430227734, 506948616, 659060556, 883997877,
   958139571, 1322822218, 1537002063, 1747873779,
   1955562222, 2024104815, 2227730452, 2361852424,
   2428436474, 2756734187, 3204031479, 3329325298]

def sha256H0 : List Nat :=
  [1779033703, 3144134277, 1013904242, 2773480762,
   1359893119, 2600822924, 528734635, 1541459225]

/-- The length field: a 64-bit big-endian byte sequence. -/
def bigEndian8 (n : Nat) : List Nat :=
  [(n >>> 56) % 256, (n >>> 48) % 256, (n >>> 40) % 256, (n >>> 32) % 256,
   (n >>> 24) % 256, (n >>> 16) % 256, (n >>> 8) % 256, n % 256]

/-- Append the `0x80` marker, zero padding to 56 mod 64, and the bit length. -/
def sha256Pad (msg : List Nat) : List Nat :=
  msg ++ [128] ++ List.replicate ((119 - msg.length % 64) % 64) 0 ++
    bigEndian8 (8 * msg.length)

/-- Group bytes into big-endian 32-bit words. -/
def bytesToWords : List Nat → List Nat
  | a :: b :: c :: d :: rest => (((a * 256 + b) * 256 + c) * 256 + d) :: bytesToWords rest
  | _ => []

/-- Split the word stream into 16-word blocks (`sha256Pad` always produces a
multiple of 16 words, so the final catch-all case is unreachable from
`sha256Words`). -/
def chunks16 : List Nat → List (List Nat)
  | [] => []
  | a1 :: a2 :: a3 :: a4 :: a5 :: a6 :: a7 :: a8 ::
    a9 :: a10 :: a11 :: a12 :: a13 :: a14 :: a15 :: a16 :: rest =>
    [a1, a2, a3, a4, a5, a6, a7, a8, a9, a10, a11, a12, a13, a14, a15, a16] ::
      chunks16 rest
  | leftover => [leftover]

/-- Extend a 16-word block by `n` schedule words. -/
def extendSchedule : List Nat → Nat → List Nat
  | w, 0 => w
  | w, n + 1 =>
    let i := w.length
    let w15 := w.getD (i - 15) 0
    let w2 := w.getD (i - 2) 0
    let s0 := rotr32 7 w15 ^^^ rotr32 18 w15 ^^^ (w15 >>> 3)
    let s1 := rotr32 17 w2 ^^^ rotr32 19 w2 ^^^ (w2 >>> 10)
    extendSchedule (w ++ [(w.getD (i - 16) 0 + s0 + w.getD (i - 7) 0 + s1) % sha256M32]) n

/-- One round of the SHA-256 compression function on the 8-word state. -/
def compressStep (st : List Nat) (kw : Nat × Nat) : List Nat :=
  match st with
  | [a, b, c, d, e, f, g, h] =>
    let s1 := rotr32 6 e ^^^ rotr32 11 e ^^^ rotr32 25 e
    let ch := (e &&& f) ^^^ ((e ^^^ 4294967295) &&& g)
    let temp1 := (h + s1 + ch + kw.1 + kw.2) % sha256M32
    let s0 := rotr32 2 a ^^^ rotr32 13 a ^^^ rotr32 22 a
    let maj := (a &&& b) ^^^ (a &&& c) ^^^ (b &&& c)
    let temp2 := (s0 + maj) % sha256M32
    [(temp1 + temp2) % sha256M32, a, b, c, (d + temp1) % sha256M32, e, f, g]
  | other => other

def compressBlock (h : List Nat) (block : List Nat) : List Nat :=
  let w := extendSchedule block 48
  let st := (sha256K.zip w).foldl compressStep h
  List.zipWith (fun x y => (x + y) % sha256M32) h st

def sha256Words (msg : List Nat) : List Nat :=
  (chunks16 (bytesToWords (sha256Pad msg))).foldl compressBlock sha256H0

def natHex : Nat → Nat → List Char
  | 0, _ => []
  | l + 1, n => natHex l (n / 16) ++ [hexDigit (n % 16)]

/-- `hashlib.sha256(bytes).hexdigest()`. -/
def sha256Hex (msg : List Nat) : String :=
  String.mk ((sha256Words msg).foldr (fun w acc => natHex 8 w ++ acc) [])

/-- `PushNotificationAuth._calculate_request_body_sha256`
(push_notification_auth.py lines 21-29): sha256 hexdigest of the compact
insertion-ordered JSON serialization, UTF-8 encoded. -/
def calculateRequestBodySha256 (data : Json) : String :=
  sha256Hex (utf8Encode (dumps data))

/-- The claims `_generate_jwt` signs (push_notification_auth.py lines
59-65). -/
structure JwtClaims where
  iat : Nat
  request_body_sha256 : String
deriving DecidableEq

/-- A JWT as exchanged on the wire, with the RSA signature abstracted: the
`sigKid`/`sigClaims` fields record which key actually produced the signature
and over which payload, so signature verification is modeled as these
matching the token's header key id and carried claims. -/
structure JwtToken where
  kid : String
  alg : String
  claims : JwtClaims
  sigKid : String
  sigClaims : JwtClaims
deriving DecidableEq

/-- `PushNotificationSenderAuth._generate_jwt` (lines 59-65): sign
`\x7biat, request_body_sha256\x7d` with the RS256 private key whose id goes into
the token header. -/
def generateJwt (keyKid : String) (now : Nat) (data : Json) : JwtToken :=
  let claims : JwtClaims := { iat := now, request_body_sha256 := calculateRequestBodySha256 data }
  { kid := keyKid, alg := "RS256", claims := claims, sigKid := keyKid, sigClaims := claims }

/-- The `Authorization` header of an inbound webhook request: a Bearer token
or some other scheme's value. -/
inductive AuthHeader
  | bearer (token : JwtToken)
  | other (value : String)

/-- An inbound push-notification HTTP request as the receiver sees it. -/
structure PNRequest where
  authHeader : Option AuthHeader
  body : Json

/-- The distinct outcomes of `verify_push_notification` (lines 87-106):
`ok` is the `return True` path; `noAuthHeader` is the `return False` path for
a missing or non-Bearer header; `unknownKey` is the `PyJWKClient` exception
for a key id absent from the JWKS; `badSignature` covers `jwt.decode`
rejecting the signature or a non-RS256 algorithm; `invalidBody` is
`ValueError("Invalid request body")`; `expiredToken` is
`ValueError("Token expired")`. -/
inductive VerifyOutcome
  | ok
  | noAuthHeader
  | unknownKey
  | badSignature
  | invalidBody
  | expiredToken
deriving DecidableEq

/-- `PushNotificationReceiverAuth.verify_push_notification` (lines 87-106),
with `time.time()` passed as `now` and the loaded JWKS as the list of its key
ids: require a Bearer header, resolve the signing key by the token's kid,
verify the RS256 signature, recompute the body hash and compare it with the
`request_body_sha256` claim, then enforce the 300-second freshness window. -/
def verifyPushNotification (jwksKids : List String) (req : PNRequest) (now : Nat) :
    VerifyOutcome :=
  match req.authHeader with
  | none => VerifyOutcome.noAuthHeader
  | some (AuthHeader.other _) => VerifyOutcome.noAuthHeader
  | some (AuthHeader.bearer t) =>
    if jwksKids.contains t.kid then
      if t.alg = "RS256" ∧ t.sigKid = t.kid ∧ t.sigClaims = t.claims then
        if calculateRequestBodySha256 req.body = t.claims.request_body_sha256 then
          if now > t.claims.iat + 300 then VerifyOutcome.expiredToken
          else VerifyOutcome.ok
        else VerifyOutcome.invalidBody
      else VerifyOutcome.badSignature
    else VerifyOutcome.unknownKey

/-- C4: a token signed over a body verifies at a receiver holding the
corresponding public key (within the freshness window), while verifying the
same token against a body whose canonical serialization differs — so that the
recomputed sha256 of the compact insertion-ordered serialization differs from
the token's `request_body_sha256` claim — fails with the body-hash mismatch
rejection (`ValueError("Invalid request body")`). -/
theorem C4_sign_verify_roundtrip_and_tamper
    (kid : String) (now t : Nat) (body tampered : Json)
    (hwin : t ≤ now + 300)
    (hser : dumps tampered ≠ dumps body)
    (hhash : calculateRequestBodySha256 tampered ≠ calculateRequestBodySha256 body) :
    verifyPushNotification [kid]
        { authHeader := some (AuthHeader.bearer (generateJwt kid now body)), body := body } t =
      VerifyOutcome.ok ∧
    verifyPushNotification [kid]
        { authHeader := some (AuthHeader.bearer (generateJwt kid now body)), body := tampered } t =
      VerifyOutcome.invalidBody := by
  have hkid : List.contains [kid] kid = true := by simp
  have hexp : ¬ t > now + 300 := by omega
  constructor
  · simp [verifyPushNotification, generateJwt, hkid, hexp]
  · simp [verifyPushNotification, generateJwt, hkid, hhash]

/-- Witness for C4: a concrete key, a concrete body, and a tampered body whose
compact serialization differs from the original in exactly one byte, checked
at the edge of the freshness window; both sha256 digests are computed by the
kernel. -/
theorem C4_sign_verify_roundtrip_and_tamper_witness :
    verifyPushNotification ["key-1"]
        { authHeader := some (AuthHeader.bearer
            (generateJwt "key-1" 0 (Json.obj (JsonObj.cons "task" (Json.str "t1") JsonObj.nil)))),
          body := Json.obj (JsonObj.cons "task" (Json.str "t1") JsonObj.nil) } 300 =
      VerifyOutcome.ok ∧
    verifyPushNotification ["key-1"]
        { authHeader := some (AuthHeader.bearer
            (generateJwt "key-1" 0 (Json.obj (JsonObj.cons "task" (Json.str "t1") JsonObj.nil)))),
          body := Json.obj (JsonObj.cons "task" (Json.str "t2") JsonObj.nil) } 300 =
      VerifyOutcome.invalidBody :=
  C4_sign_verify_roundtrip_and_tamper "key-1" 0 300
    (Json.obj (JsonObj.cons "task" (Json.str "t1") JsonObj.nil)) (Json.obj (JsonObj.cons "task" (Json.str "t2") JsonObj.nil))
    (by decide) (by decide) (by decide)

end A2A
